import Mathlib

/-!
Shallow embedding of the learning-path core of the Nervesparks educational
RAG system (modules `src/learning_path/planner.py`, `generator.py`,
`assessor.py`).  Python dictionaries with a fixed key set become structures,
metadata dictionaries with optional keys become `Option`-valued fields,
Python lists become `List`, Python `int` becomes `Int` (or `Nat` where the
source only ever produces non-negative counts), and Python floats appearing
in thresholds and multipliers become `Rat` (exact; the float values of the
source agree with the rational model on every comparison and on the clamped
duration formula, checked exhaustively over the relevant range).

`random.shuffle` and `random.choice` are modeled as injected functions
(`shuffle`, `choose`), following the spec's requirement that randomness be
injectable; theorems quantify over them, a concrete instantiation uses the
identity permutation and `List.head?`.
-/

namespace Nervesparks

/-- Metadata dictionary of a content item; keys `subject`, `difficulty_level`
and `content_type` may be absent (the source reads them with
`dict.get(key, default)` or `dict.get(key)`). -/
structure Metadata where
  subject : Option String
  difficulty_level : Option String
  content_type : Option String
deriving DecidableEq, Repr

/-- A content item as consumed by the planner: `{id, content, metadata}`. -/
structure ContentItem where
  id : String
  content : String
  metadata : Metadata
deriving DecidableEq, Repr

/-- `LearningObjective` dataclass from `generator.py`. -/
structure LearningObjective where
  id : String
  title : String
  description : String
  subject : String
  difficulty_level : String
  prerequisites : List String
  estimated_duration : Int
  content_ids : List String
deriving DecidableEq, Repr

/-! ### Planner: pure helpers (`planner.py`) -/

/-- `self.min_objectives_per_path` -/
def min_objectives_per_path : Nat := 3
/-- `self.max_objectives_per_path` -/
def max_objectives_per_path : Nat := 10
/-- `self.min_duration_per_objective` -/
def min_duration_per_objective : Int := 15
/-- `self.max_duration_per_objective` -/
def max_duration_per_objective : Int := 60

/-- `base_counts.get(path_level, 6)` in `_determine_objective_count`. -/
def base_counts (path_level : String) : Nat :=
  if path_level = "beginner" then 4
  else if path_level = "intermediate" then 6
  else if path_level = "advanced" then 8
  else 6

/-- `_determine_objective_count`.  `target_duration` is `Optional[int]`;
Python's `if target_duration:` is falsy both for `None` and for `0`, and
`//` is floor division, hence `Int.fdiv`. -/
def determine_objective_count (path_level : String) (target_duration : Option Int) : Nat :=
  let base_count := base_counts path_level
  match target_duration with
  | some t =>
      if t = 0 then min base_count max_objectives_per_path
      else (min (max 3 (t.fdiv 30)) (max_objectives_per_path : Int)).toNat
  | none => min base_count max_objectives_per_path

/-- `_get_difficulty_progression`. -/
def get_difficulty_progression (path_level : String) : List String :=
  if path_level = "beginner" then ["beginner", "beginner", "intermediate"]
  else if path_level = "intermediate" then ["intermediate", "intermediate", "advanced"]
  else if path_level = "advanced" then ["advanced", "advanced", "expert"]
  else ["intermediate", "advanced"]

/-- `style_preferences.get(primary_style, ['lesson', 'tutorial'])` in
`_filter_content_by_learning_style`. -/
def style_preferences (primary_style : String) : List String :=
  if primary_style = "visual" then ["lesson", "tutorial", "concept"]
  else if primary_style = "auditory" then ["lesson", "tutorial"]
  else if primary_style = "kinesthetic" then ["exercise", "tutorial", "assessment"]
  else ["lesson", "tutorial"]

/-- `item['metadata'].get('content_type', 'lesson')`. -/
def content_type_of (item : ContentItem) : String :=
  item.metadata.content_type.getD "lesson"

/-- `_filter_content_by_learning_style`: keep items whose content type is in
the primary style's allow-list; if that empties the list, return the
unfiltered input.  The caller passes `learning_style.get('primary_style',
'visual')`, which we take as the `primary_style` argument. -/
def filter_content_by_learning_style (content : List ContentItem)
    (primary_style : String) : List ContentItem :=
  let preferred_types := style_preferences primary_style
  let filtered_content :=
    content.filter (fun item => content_type_of item ∈ preferred_types)
  if filtered_content.isEmpty then content else filtered_content

/-- Count of maximal whitespace-free character runs; the boolean tracks
whether the scan is inside a word. -/
def countWords : List Char → Bool → Nat
  | [], _ => 0
  | c :: cs, inWord =>
      if c.isWhitespace then countWords cs false
      else (if inWord then 0 else 1) + countWords cs true

/-- Python `len(content.split())`: the number of whitespace-separated
words. -/
def word_count (s : String) : Nat := countWords s.data false

/-- Numerator of the difficulty multiplier over denominator 10
(`0.8 → 8`, `1.0 → 10`, `1.3 → 13`, `1.5 → 15`, default `1.0 → 10`).
The duration computation `int(base_duration * multiplier)` of the source is
modeled exactly as `base * numerator / 10` in `Nat` (floor); this agrees
with the CPython float computation on the whole clamped range. -/
def difficulty_multiplier_num (difficulty : String) : Nat :=
  if difficulty = "beginner" then 8
  else if difficulty = "intermediate" then 10
  else if difficulty = "advanced" then 13
  else if difficulty = "expert" then 15
  else 10

/-- `_estimate_objective_duration`: base is `max(15, word_count // 50)`,
then the difficulty multiplier is applied and truncated, then the result is
clamped to `[15, 60]`. -/
def estimate_objective_duration (content : String) (difficulty : String) : Int :=
  let base_duration : Nat := max 15 (word_count content / 50)
  let estimated_duration : Nat := base_duration * difficulty_multiplier_num difficulty / 10
  max min_duration_per_objective (min (estimated_duration : Int) max_duration_per_objective)

/-- `subject_names.get(subject, subject.title())` — the fixed part of the
dictionary in `_generate_objective_title`. -/
def subject_names (subject : String) : Option String :=
  if subject = "mathematics" then some "Mathematics"
  else if subject = "physics" then some "Physics"
  else if subject = "chemistry" then some "Chemistry"
  else if subject = "biology" then some "Biology"
  else if subject = "computer_science" then some "Computer Science"
  else if subject = "history" then some "History"
  else if subject = "literature" then some "Literature"
  else if subject = "economics" then some "Economics"
  else none

/-- One step of Python `str.title()`: uppercase a cased character that
follows a non-cased one, lowercase the rest. -/
def pyTitleStep (acc : List Char × Bool) (c : Char) : List Char × Bool :=
  if c.isAlpha then
    (acc.1 ++ [if acc.2 then c.toLower else c.toUpper], true)
  else (acc.1 ++ [c], false)

/-- Python `str.title()`. -/
def pyTitle (s : String) : String :=
  ⟨(s.data.foldl pyTitleStep ([], false)).1⟩

/-- `difficulty_names.get(difficulty, difficulty.title())`. -/
def difficulty_names (difficulty : String) : String :=
  if difficulty = "beginner" then "Fundamentals"
  else if difficulty = "intermediate" then "Intermediate Concepts"
  else if difficulty = "advanced" then "Advanced Topics"
  else if difficulty = "expert" then "Expert Level"
  else pyTitle difficulty

/-- `_generate_objective_title`. -/
def generate_objective_title (subject : String) (difficulty : String) (index : Nat) : String :=
  let subject_name := (subject_names subject).getD (pyTitle subject)
  let difficulty_name := difficulty_names difficulty
  s!"{subject_name} - {difficulty_name} (Part {index})"

/-- `_extract_description_from_content`: first two `'.'`-separated pieces
when there are more than two, otherwise the first 200 characters with an
ellipsis (or the whole text), finally stripped. -/
def extract_description_from_content (content : String) : String :=
  let sentences := content.splitOn "."
  let description :=
    if sentences.length > 2 then
      String.intercalate ". " (sentences.take 2) ++ "."
    else if content.length > 200 then
      (content.take 200) ++ "..."
    else content
  description.trim

/-- Body of the loop of `_create_objectives_from_content` for index `i` and
item `item`. -/
def mk_planned_objective (subject : String) (difficulty : String) (i : Nat)
    (item : ContentItem) : LearningObjective :=
  { id := s!"obj_{subject}_{difficulty}_{i}"
    title := generate_objective_title subject difficulty (i + 1)
    description := extract_description_from_content item.content
    subject := subject
    difficulty_level := difficulty
    prerequisites := []
    estimated_duration := estimate_objective_duration item.content difficulty
    content_ids := [item.id] }

/-- `_create_objectives_from_content`.  The in-place `random.shuffle` is the
injected permutation `shuffle`; `enumerate(content[:max_objectives])` after
the shuffle is `(shuffle content).take max_objectives` with indices. -/
def create_objectives_from_content (shuffle : List ContentItem → List ContentItem)
    (content : List ContentItem) (subject : String) (difficulty : String)
    (max_objectives : Nat) : List LearningObjective :=
  (((shuffle content).take max_objectives).enum).map
    (fun p => mk_planned_objective subject difficulty p.1 p.2)

/-- Insertion-ordered association list, the model of a Python `dict`. -/
abbrev DifficultyGroups := List (String × List ContentItem)
abbrev ContentGroups := List (String × DifficultyGroups)

/-- Update the entry of `k` in an insertion-ordered association list,
appending a fresh entry at the end when `k` is absent (Python dict
assignment semantics). -/
def upsert {β : Type} (k : String) (f : Option β → β) :
    List (String × β) → List (String × β)
  | [] => [(k, f none)]
  | (k', v) :: rest =>
      if k' = k then (k, f (some v)) :: rest else (k', v) :: upsert k f rest

/-- `item['metadata'].get('subject', 'general')`. -/
def subject_of (item : ContentItem) : String :=
  item.metadata.subject.getD "general"

/-- `item['metadata'].get('difficulty_level', 'intermediate')`. -/
def difficulty_of (item : ContentItem) : String :=
  item.metadata.difficulty_level.getD "intermediate"

/-- `_group_content_by_subject_and_difficulty`. -/
def group_content_by_subject_and_difficulty (content : List ContentItem) : ContentGroups :=
  content.foldl
    (fun groups item =>
      upsert (subject_of item)
        (fun g => upsert (difficulty_of item)
          (fun l => l.getD [] ++ [item]) (g.getD []))
        groups)
    []

/-- Body of the difficulty-progression loop of `_plan_subject_objectives`. -/
def plan_subject_step (shuffle : List ContentItem → List ContentItem)
    (subject : String) (difficulty_groups : DifficultyGroups)
    (primary_style : String) (n_objectives : Nat)
    (objectives : List LearningObjective) (difficulty : String) :
    List LearningObjective :=
  match difficulty_groups.lookup difficulty with
  | some content_for_difficulty =>
      if objectives.length < n_objectives then
        let filtered_content :=
          filter_content_by_learning_style content_for_difficulty primary_style
        if filtered_content.isEmpty then objectives
        else objectives ++
          create_objectives_from_content shuffle filtered_content subject difficulty
            (n_objectives - objectives.length)
      else objectives
  | none => objectives

/-- `_plan_subject_objectives`. -/
def plan_subject_objectives (shuffle : List ContentItem → List ContentItem)
    (subject : String) (difficulty_groups : DifficultyGroups)
    (primary_style : String) (path_level : String) (n_objectives : Nat) :
    List LearningObjective :=
  (get_difficulty_progression path_level).foldl
    (plan_subject_step shuffle subject difficulty_groups primary_style n_objectives) []

/-- The filler objective built inside `_add_additional_objectives`. -/
def mk_additional_objective (subject : String) (item : ContentItem) (n : Nat) :
    LearningObjective :=
  { id := s!"obj_{subject}_additional_{n}"
    title := pyTitle subject ++ " - Introduction"
    description := extract_description_from_content item.content
    subject := subject
    difficulty_level := "beginner"
    prerequisites := []
    estimated_duration := 30
    content_ids := [item.id] }

/-- Body of the uncovered-subjects loop of `_add_additional_objectives`.
Note the asymmetry of the source: subjects are collected with
`metadata.get('subject', 'general')` but the per-subject content filter uses
`metadata.get('subject') == subject` with no default. -/
def add_additional_step (choose : List ContentItem → Option ContentItem)
    (available_content : List ContentItem) (existing_count : Nat)
    (target_count : Nat) (additional : List LearningObjective)
    (subject : String) : List LearningObjective :=
  if target_count ≤ existing_count + additional.length then additional
  else
    let subject_content :=
      available_content.filter (fun item => item.metadata.subject = some subject)
    if subject_content.isEmpty then additional
    else
      match choose subject_content with
      | some content_item =>
          additional ++ [mk_additional_objective subject content_item additional.length]
      | none => additional

/-- `_add_additional_objectives`.  `random.choice` is the injected `choose`
(it returns an element of any non-empty list); the iteration order of the
Python set `uncovered_subjects` is unspecified, modeled as first-occurrence
order of the subjects. -/
def add_additional_objectives (choose : List ContentItem → Option ContentItem)
    (available_content : List ContentItem)
    (existing_objectives : List LearningObjective) (target_count : Nat) :
    List LearningObjective :=
  let covered_subjects := existing_objectives.map (fun o => o.subject)
  let all_subjects := (available_content.map subject_of).dedup
  let uncovered_subjects := all_subjects.filter (fun s => s ∉ covered_subjects)
  uncovered_subjects.foldl
    (add_additional_step choose available_content existing_objectives.length target_count)
    []

/-- `difficulty_key` in `_sort_objectives_by_difficulty_and_prerequisites`:
position in `['beginner', 'intermediate', 'advanced', 'expert']`, unknown
difficulties last. -/
def difficulty_key (obj : LearningObjective) : Nat :=
  if obj.difficulty_level = "beginner" then 0
  else if obj.difficulty_level = "intermediate" then 1
  else if obj.difficulty_level = "advanced" then 2
  else if obj.difficulty_level = "expert" then 3
  else 4

/-- The sort relation: compare difficulty keys. -/
def byDifficulty (a b : LearningObjective) : Prop := difficulty_key a ≤ difficulty_key b

instance : DecidableRel byDifficulty :=
  fun a b => Nat.decLe (difficulty_key a) (difficulty_key b)

instance : IsTotal LearningObjective byDifficulty :=
  ⟨fun a b => Nat.le_total (difficulty_key a) (difficulty_key b)⟩

instance : IsTrans LearningObjective byDifficulty :=
  ⟨fun _ _ _ h h' => Nat.le_trans h h'⟩

/-- `_sort_objectives_by_difficulty_and_prerequisites`: Python `sorted` with
the difficulty key, a stable sort, modeled by `List.insertionSort`. -/
def sort_objectives_by_difficulty_and_prerequisites
    (objectives : List LearningObjective) : List LearningObjective :=
  objectives.insertionSort byDifficulty

/-- `plan_objectives`.  When `available_content` is empty the per-subject
loop does not run, so the Python division `n_objectives //
len(content_groups)` is never evaluated; `Nat` division by zero inside the
unexecuted `List.foldl` body is likewise inert. -/
def plan_objectives (shuffle : List ContentItem → List ContentItem)
    (choose : List ContentItem → Option ContentItem)
    (available_content : List ContentItem) (primary_style : String)
    (path_level : String) (target_duration : Option Int) :
    List LearningObjective :=
  let content_groups := group_content_by_subject_and_difficulty available_content
  let n_objectives := determine_objective_count path_level target_duration
  let all_objectives := content_groups.foldl
    (fun acc p =>
      acc ++ plan_subject_objectives shuffle p.1 p.2 primary_style path_level
        (n_objectives / content_groups.length))
    []
  let all_objectives :=
    if all_objectives.length < n_objectives then
      all_objectives ++
        add_additional_objectives choose available_content all_objectives n_objectives
    else all_objectives
  (sort_objectives_by_difficulty_and_prerequisites all_objectives).take n_objectives

/-- The validation record returned by `validate_learning_path`;
`subjects_covered` and `difficulty_levels` are Python sets, modeled as
first-insertion-ordered duplicate-free lists. -/
structure Validation where
  is_valid : Bool
  issues : List String
  warnings : List String
  total_duration : Int
  subjects_covered : List String
  difficulty_levels : List String
deriving DecidableEq, Repr

/-- `set.add` on an insertion-ordered duplicate-free list. -/
def setAdd (l : List String) (x : String) : List String :=
  if x ∈ l then l else l ++ [x]

/-- The per-objective loop body of `validate_learning_path` (index `i`,
objective `obj`). -/
def validate_step (v : Validation) (p : Nat × LearningObjective) : Validation :=
  let i := p.1
  let obj := p.2
  let j := i + 1
  let d := obj.estimated_duration
  let v :=
    if obj.estimated_duration < min_duration_per_objective then
      { v with warnings := v.warnings ++
          [s!"Objective {j} duration ({d} min) is below minimum"] }
    else v
  let v :=
    if obj.estimated_duration > max_duration_per_objective then
      { v with warnings := v.warnings ++
          [s!"Objective {j} duration ({d} min) is above maximum"] }
    else v
  { v with
    total_duration := v.total_duration + obj.estimated_duration
    subjects_covered := setAdd v.subjects_covered obj.subject
    difficulty_levels := setAdd v.difficulty_levels obj.difficulty_level }

/-- `validate_learning_path`. -/
def validate_learning_path (objectives : List LearningObjective) : Validation :=
  let validation : Validation :=
    { is_valid := true, issues := [], warnings := [], total_duration := 0
      subjects_covered := [], difficulty_levels := [] }
  if objectives.isEmpty then
    { validation with is_valid := false, issues := ["No objectives defined"] }
  else
    let v := objectives.enum.foldl validate_step validation
    let v :=
      if v.total_duration < 30 then
        { v with warnings := v.warnings ++ ["Total duration is very short"] }
      else v
    let v :=
      if v.subjects_covered.length = 1 then
        { v with warnings := v.warnings ++ ["Path covers only one subject"] }
      else v
    let v :=
      if objectives.length < min_objectives_per_path then
        { v with
          issues := v.issues ++ [s!"Too few objectives ({objectives.length})"]
          is_valid := false }
      else v
    if objectives.length > max_objectives_per_path then
      { v with warnings := v.warnings ++ [s!"Many objectives ({objectives.length})"] }
    else v

/-! ### Assessor (`assessor.py`) -/

/-- Student profile dictionary.  Optional keys are `Option`-valued; the
mapping-valued keys default to empty mappings (their absence and emptiness
are indistinguishable to the code, which only reads them with `.get`).
Preference weights are the occurrence counts accumulated by the student
manager, hence `Nat`; behavioral times and performance scores are compared
numerically only, hence `Rat`. -/
structure StudentProfile where
  student_id : String := ""
  current_level : Option String := none
  average_performance : Option Rat := none
  learning_pace : Option String := none
  time_availability : Option String := none
  learning_style_assessment : Option (List (String × String)) := none
  content_preferences : List (String × Nat) := []
  learning_behavior : List (String × Rat) := []
  performance_patterns : List (String × Rat) := []
  completed_content : List String := []
deriving Repr

/-- `mapping.get(key, 0)` on an association list. -/
def getNum {β : Type} [Zero β] (l : List (String × β)) (k : String) : β :=
  (l.lookup k).getD 0

/-- The four per-modality accumulators. -/
structure Scores where
  visual : Nat
  auditory : Nat
  kinesthetic : Nat
  reading_writing : Nat
deriving DecidableEq, Repr

/-- `sum(scores.values())`. -/
def Scores.total (s : Scores) : Nat :=
  s.visual + s.auditory + s.kinesthetic + s.reading_writing

/-- `scores[name]` for a modality name (callers only use the four valid
names). -/
def Scores.get (s : Scores) (name : String) : Nat :=
  if name = "visual" then s.visual
  else if name = "auditory" then s.auditory
  else if name = "kinesthetic" then s.kinesthetic
  else s.reading_writing

/-- `scores.items()` in dictionary insertion order. -/
def Scores.items (s : Scores) : List (String × Nat) :=
  [("visual", s.visual), ("auditory", s.auditory),
   ("kinesthetic", s.kinesthetic), ("reading_writing", s.reading_writing)]

/-- Python `max(..., key=value)` on a non-empty association list: the first
entry whose value is maximal (`max` replaces the current best only on a
strictly greater value). -/
def firstMax (init : String × Nat) (rest : List (String × Nat)) : String :=
  (rest.foldl (fun best kv => if kv.2 > best.2 then kv else best) init).1

/-- `sorted_styles[0][0]` for a stable descending sort of `scores.items()`:
the first modality with maximal score. -/
def primaryOf (s : Scores) : String :=
  firstMax ("visual", s.visual)
    [("auditory", s.auditory), ("kinesthetic", s.kinesthetic),
     ("reading_writing", s.reading_writing)]

/-- `sorted_styles[1][0]`: the first maximal modality once the primary entry
is removed (stable descending sort, second position). -/
def secondaryOf (s : Scores) (primary : String) : String :=
  match (s.items).filter (fun kv => kv.1 ≠ primary) with
  | [] => primary
  | kv :: rest => firstMax kv rest

/-- The static `learning_styles` catalog: description field. -/
def style_description (style : String) : String :=
  if style = "visual" then
    "Learns best through visual aids, diagrams, and spatial organization"
  else if style = "auditory" then
    "Learns best through listening, discussion, and verbal communication"
  else if style = "kinesthetic" then
    "Learns best through hands-on activities, movement, and physical interaction"
  else
    "Learns best through reading, writing, and text-based activities"

/-- The static `learning_styles` catalog: preferences field. -/
def style_catalog_preferences (style : String) : List String :=
  if style = "visual" then ["diagrams", "charts", "videos", "images", "mind maps"]
  else if style = "auditory" then
    ["discussions", "lectures", "podcasts", "verbal explanations"]
  else if style = "kinesthetic" then
    ["experiments", "hands-on activities", "role-playing", "physical movement"]
  else ["reading", "note-taking", "writing", "text-based materials"]

/-- The static `learning_styles` catalog: strengths field. -/
def style_strengths (style : String) : List String :=
  if style = "visual" then ["spatial reasoning", "visual memory", "pattern recognition"]
  else if style = "auditory" then
    ["verbal memory", "listening comprehension", "oral communication"]
  else if style = "kinesthetic" then
    ["physical coordination", "tactile memory", "practical application"]
  else ["text comprehension", "written expression", "analytical thinking"]

/-- The static `learning_styles` catalog: challenges field. -/
def style_challenges (style : String) : List String :=
  if style = "visual" then ["verbal instructions", "auditory-only content"]
  else if style = "auditory" then ["visual-only content", "silent reading"]
  else if style = "kinesthetic" then ["passive learning", "theoretical content"]
  else ["visual content", "hands-on activities"]

/-- The result record built by both assessment branches. -/
structure StyleResult where
  primary_style : String
  secondary_style : String
  scores : Scores
  primary_confidence : Rat
  secondary_confidence : Rat
  style_description : String
  preferences : List String
  strengths : List String
  challenges : List String
  inferred : Bool
deriving Repr

/-- `_analyze_assessment_results`: tally responses that name one of the four
modalities, then take the top two of the stable descending sort. -/
def analyze_assessment_results (assessment_results : List (String × String)) :
    StyleResult :=
  let scores := assessment_results.foldl
    (fun s qr =>
      if qr.2 = "visual" then { s with visual := s.visual + 1 }
      else if qr.2 = "auditory" then { s with auditory := s.auditory + 1 }
      else if qr.2 = "kinesthetic" then { s with kinesthetic := s.kinesthetic + 1 }
      else if qr.2 = "reading_writing" then
        { s with reading_writing := s.reading_writing + 1 }
      else s)
    ⟨0, 0, 0, 0⟩
  let primary_style := primaryOf scores
  let secondary_style := secondaryOf scores primary_style
  let total_responses := scores.total
  let primary_confidence : Rat :=
    if total_responses > 0 then (scores.get primary_style : Rat) / total_responses else 0
  let secondary_confidence : Rat :=
    if total_responses > 0 then (scores.get secondary_style : Rat) / total_responses else 0
  { primary_style := primary_style
    secondary_style := secondary_style
    scores := scores
    primary_confidence := primary_confidence
    secondary_confidence := secondary_confidence
    style_description := style_description primary_style
    preferences := style_catalog_preferences primary_style
    strengths := style_strengths primary_style
    challenges := style_challenges primary_style
    inferred := false }

/-- The content-preference accumulation of
`_infer_learning_style_from_profile` (each `if pref > 0: score += pref`). -/
def infer_preference_scores (cp : List (String × Nat)) : Scores :=
  let addIf (acc : Nat) (k : String) : Nat :=
    if getNum cp k > 0 then acc + getNum cp k else acc
  { visual := addIf (addIf (addIf 0 "videos") "diagrams") "images"
    auditory := addIf (addIf (addIf 0 "podcasts") "discussions") "lectures"
    kinesthetic := addIf (addIf (addIf 0 "experiments") "hands_on") "interactive"
    reading_writing := addIf (addIf (addIf 0 "reading") "note_taking") "writing" }

/-- `_infer_learning_style_from_profile`. -/
def infer_learning_style_from_profile (p : StudentProfile) : StyleResult :=
  let s := infer_preference_scores p.content_preferences
  let lb := p.learning_behavior
  let s :=
    if getNum lb "time_on_videos" > getNum lb "time_on_text" then
      { s with visual := s.visual + 1 } else s
  let s :=
    if getNum lb "time_on_audio" > getNum lb "time_on_text" then
      { s with auditory := s.auditory + 1 } else s
  let s :=
    if getNum lb "time_on_interactive" > getNum lb "time_on_text" then
      { s with kinesthetic := s.kinesthetic + 1 } else s
  let s :=
    if getNum lb "time_on_text" > 0 then
      { s with reading_writing := s.reading_writing + 1 } else s
  let pp := p.performance_patterns
  let s :=
    if getNum pp "visual_tasks" > getNum pp "text_tasks" then
      { s with visual := s.visual + 1 } else s
  let s :=
    if getNum pp "audio_tasks" > getNum pp "text_tasks" then
      { s with auditory := s.auditory + 1 } else s
  let s :=
    if getNum pp "hands_on_tasks" > getNum pp "text_tasks" then
      { s with kinesthetic := s.kinesthetic + 1 } else s
  let s :=
    if getNum pp "text_tasks" > 0 then
      { s with reading_writing := s.reading_writing + 1 } else s
  let s := if s.total = 0 then { s with visual := 1 } else s
  let primary_style := primaryOf s
  let secondary_style := secondaryOf s primary_style
  { primary_style := primary_style
    secondary_style := secondary_style
    scores := s
    primary_confidence := 6 / 10
    secondary_confidence := 4 / 10
    style_description := style_description primary_style
    preferences := style_catalog_preferences primary_style
    strengths := style_strengths primary_style
    challenges := style_challenges primary_style
    inferred := true }

/-- `assess_learning_style`: use quiz answers when present, otherwise infer
from the profile. -/
def assess_learning_style (p : StudentProfile) : StyleResult :=
  match p.learning_style_assessment with
  | some assessment_results => analyze_assessment_results assessment_results
  | none => infer_learning_style_from_profile p

/-! ### Generator (`generator.py`) -/

/-- Naive `datetime.datetime` value, the fields read and written by
`isoformat`/`fromisoformat`. -/
structure PyDateTime where
  year : Nat
  month : Nat
  day : Nat
  hour : Nat
  minute : Nat
  second : Nat
  microsecond : Nat
deriving DecidableEq, Repr

/-- `LearningPath` dataclass. -/
structure LearningPath where
  student_id : String
  path_id : String
  title : String
  description : String
  objectives : List LearningObjective
  estimated_total_duration : Int
  difficulty_progression : List String
  subjects : List String
  created_at : PyDateTime
  updated_at : PyDateTime
  status : String
deriving DecidableEq, Repr

/-- The three level accumulators of `_determine_path_level`, in dictionary
order `(beginner, intermediate, advanced)`.  `factors[current_level] += 2`
raises `KeyError` for a level outside the three keys, hence `Option`. -/
def path_level_factors (p : StudentProfile) : Option (Nat × Nat × Nat) :=
  let current_level := p.current_level.getD "beginner"
  let f : Nat × Nat × Nat := (0, 0, 0)
  let f? : Option (Nat × Nat × Nat) :=
    if current_level = "beginner" then some (f.1 + 2, f.2.1, f.2.2)
    else if current_level = "intermediate" then some (f.1, f.2.1 + 2, f.2.2)
    else if current_level = "advanced" then some (f.1, f.2.1, f.2.2 + 2)
    else none
  f?.map (fun f =>
    let avg_performance := p.average_performance.getD (5 / 10)
    let f :=
      if avg_performance > 8 / 10 then (f.1, f.2.1, f.2.2 + 1)
      else if avg_performance > 6 / 10 then (f.1, f.2.1 + 1, f.2.2)
      else (f.1 + 1, f.2.1, f.2.2)
    let learning_pace := p.learning_pace.getD "normal"
    let f :=
      if learning_pace = "fast" then (f.1, f.2.1, f.2.2 + 1)
      else if learning_pace = "slow" then (f.1 + 1, f.2.1, f.2.2)
      else f
    let time_availability := p.time_availability.getD "medium"
    let f :=
      if time_availability = "high" then (f.1, f.2.1, f.2.2 + 1)
      else if time_availability = "low" then (f.1 + 1, f.2.1, f.2.2)
      else f
    f)

/-- `_determine_path_level`: `max(factors, key=factors.get)` over the
insertion-ordered factor dictionary. -/
def determine_path_level (p : StudentProfile) : Option String :=
  (path_level_factors p).map (fun f =>
    firstMax ("beginner", f.1) [("intermediate", f.2.1), ("advanced", f.2.2)])

/-- The analysis record of `_analyze_progress`. -/
structure ProgressAnalysis where
  needs_adaptation : Bool
  current_level : String
  learning_pace : String
  time_availability : String
  path_level : String
deriving DecidableEq, Repr

/-- Student progress dictionary (fields read by `_analyze_progress` and
`adapt_learning_path`). -/
structure StudentProgress where
  completion_rate : Option Rat := none
  average_performance : Option Rat := none
  completed_content : List String := []
deriving Repr

/-- `_analyze_progress`. -/
def analyze_progress (progress : StudentProgress) : ProgressAnalysis :=
  let analysis : ProgressAnalysis :=
    { needs_adaptation := false, current_level := "intermediate"
      learning_pace := "normal", time_availability := "medium"
      path_level := "intermediate" }
  let completion_rate := progress.completion_rate.getD (5 / 10)
  let analysis :=
    if completion_rate < 3 / 10 then
      { analysis with
          needs_adaptation := true
          current_level := "beginner"
          learning_pace := "slow" }
    else if completion_rate > 8 / 10 then
      { analysis with
          needs_adaptation := true
          current_level := "advanced"
          learning_pace := "fast" }
    else analysis
  let avg_performance := progress.average_performance.getD (5 / 10)
  let analysis :=
    if avg_performance < 4 / 10 then
      { analysis with needs_adaptation := true, current_level := "beginner" }
    else if avg_performance > 8 / 10 then
      { analysis with needs_adaptation := true, current_level := "advanced" }
    else analysis
  let path_level :=
    if analysis.current_level = "beginner" then "beginner"
    else if analysis.current_level = "advanced" then "advanced"
    else "intermediate"
  { analysis with path_level := path_level }

/-- `sum(obj.estimated_duration for obj in objectives)`. -/
def total_duration_of (objectives : List LearningObjective) : Int :=
  (objectives.map (fun o => o.estimated_duration)).sum

/-- `adapt_learning_path`.  The external retrieval collaborator
(`_get_available_content` over the vector store) is the injected `fetch`
(subjects and completed content to candidate pool), and the planner's
randomness is the injected `shuffle`/`choose`; `now` is the wall clock read
by `datetime.now()`.  When no threshold fires the path is returned
untouched. -/
def adapt_learning_path (shuffle : List ContentItem → List ContentItem)
    (choose : List ContentItem → Option ContentItem)
    (fetch : List String → List String → List ContentItem)
    (now : PyDateTime) (learning_path : LearningPath)
    (student_progress : StudentProgress) : LearningPath :=
  let progress_analysis := analyze_progress student_progress
  if progress_analysis.needs_adaptation then
    let available_content :=
      fetch learning_path.subjects student_progress.completed_content
    let student_profile : StudentProfile :=
      { student_id := learning_path.student_id
        current_level := some progress_analysis.current_level
        learning_pace := some progress_analysis.learning_pace
        time_availability := some progress_analysis.time_availability }
    let learning_style := assess_learning_style student_profile
    let new_objectives :=
      plan_objectives shuffle choose available_content
        learning_style.primary_style progress_analysis.path_level
        (some learning_path.estimated_total_duration)
    { learning_path with
      objectives := new_objectives
      estimated_total_duration := total_duration_of new_objectives
      updated_at := now }
  else learning_path

/-! ### Timestamps and persistence records (`save_learning_path` /
`load_learning_path`)

`datetime.isoformat` emits `YYYY-MM-DDTHH:MM:SS` plus `.ffffff` when the
microsecond field is non-zero; `datetime.fromisoformat` parses exactly these
strings back.  Strings are modeled as character lists; the parser is the
restriction of `fromisoformat` to well-formed inputs (shape-checked by
pattern matching, digits read positionally). -/

/-- Numeric value of a digit character. -/
def digitToNat (c : Char) : Nat := c.toNat - 48

/-- `%02d` for `n < 100`. -/
def pad2 (n : Nat) : List Char := [Nat.digitChar (n / 10), Nat.digitChar (n % 10)]

/-- `%04d` for `n < 10000`. -/
def pad4 (n : Nat) : List Char :=
  [Nat.digitChar (n / 1000), Nat.digitChar (n / 100 % 10),
   Nat.digitChar (n / 10 % 10), Nat.digitChar (n % 10)]

/-- `%06d` for `n < 1000000`. -/
def pad6 (n : Nat) : List Char :=
  [Nat.digitChar (n / 100000), Nat.digitChar (n / 10000 % 10),
   Nat.digitChar (n / 1000 % 10), Nat.digitChar (n / 100 % 10),
   Nat.digitChar (n / 10 % 10), Nat.digitChar (n % 10)]

/-- `datetime.isoformat()`. -/
def PyDateTime.isoformat (d : PyDateTime) : List Char :=
  pad4 d.year ++ '-' :: pad2 d.month ++ '-' :: pad2 d.day ++
    'T' :: pad2 d.hour ++ ':' :: pad2 d.minute ++ ':' :: pad2 d.second ++
    (if d.microsecond = 0 then [] else '.' :: pad6 d.microsecond)

/-- Two positional digits. -/
def parse2 (c1 c2 : Char) : Nat := 10 * digitToNat c1 + digitToNat c2

/-- Four positional digits. -/
def parse4 (c1 c2 c3 c4 : Char) : Nat :=
  1000 * digitToNat c1 + 100 * digitToNat c2 + 10 * digitToNat c3 + digitToNat c4

/-- Six positional digits. -/
def parse6 (c1 c2 c3 c4 c5 c6 : Char) : Nat :=
  100000 * digitToNat c1 + 10000 * digitToNat c2 + 1000 * digitToNat c3 +
    100 * digitToNat c4 + 10 * digitToNat c5 + digitToNat c6

/-- `datetime.fromisoformat`, on the strings `isoformat` produces. -/
def PyDateTime.fromisoformat : List Char → Option PyDateTime
  | y1 :: y2 :: y3 :: y4 :: '-' :: m1 :: m2 :: '-' :: d1 :: d2 ::
      'T' :: h1 :: h2 :: ':' :: n1 :: n2 :: ':' :: s1 :: s2 :: rest =>
    match rest with
    | [] =>
        some ⟨parse4 y1 y2 y3 y4, parse2 m1 m2, parse2 d1 d2,
              parse2 h1 h2, parse2 n1 n2, parse2 s1 s2, 0⟩
    | '.' :: u1 :: u2 :: u3 :: u4 :: u5 :: u6 :: [] =>
        some ⟨parse4 y1 y2 y3 y4, parse2 m1 m2, parse2 d1 d2,
              parse2 h1 h2, parse2 n1 n2, parse2 s1 s2,
              parse6 u1 u2 u3 u4 u5 u6⟩
    | _ => none
  | _ => none

/-- Field ranges guaranteed by Python's `datetime` constructor (`1 ≤ month ≤
12` etc.; only the upper bounds used by the padded formatting are kept). -/
def PyDateTime.Valid (d : PyDateTime) : Prop :=
  d.year < 10000 ∧ d.month < 100 ∧ d.day < 100 ∧ d.hour < 100 ∧
    d.minute < 100 ∧ d.second < 100 ∧ d.microsecond < 1000000

instance (d : PyDateTime) : Decidable d.Valid := by
  unfold PyDateTime.Valid; infer_instance

/-- The nested objective dictionary written by `save_learning_path`. -/
structure ObjectiveData where
  id : String
  title : String
  description : String
  subject : String
  difficulty_level : String
  prerequisites : List String
  estimated_duration : Int
  content_ids : List String
deriving DecidableEq, Repr

/-- The `path_data` dictionary written by `save_learning_path` (the JSON
record; timestamps serialized as ISO-8601 strings). -/
structure PathData where
  student_id : String
  path_id : String
  title : String
  description : String
  objectives : List ObjectiveData
  estimated_total_duration : Int
  difficulty_progression : List String
  subjects : List String
  created_at : List Char
  updated_at : List Char
  status : String
deriving DecidableEq, Repr

/-- The per-objective dictionary of `save_learning_path`. -/
def objective_to_data (o : LearningObjective) : ObjectiveData :=
  { id := o.id, title := o.title, description := o.description
    subject := o.subject, difficulty_level := o.difficulty_level
    prerequisites := o.prerequisites, estimated_duration := o.estimated_duration
    content_ids := o.content_ids }

/-- `save_learning_path`, as the record it serializes (the file write is the
external persistence collaborator). -/
def save_learning_path (p : LearningPath) : PathData :=
  { student_id := p.student_id, path_id := p.path_id, title := p.title
    description := p.description
    objectives := p.objectives.map objective_to_data
    estimated_total_duration := p.estimated_total_duration
    difficulty_progression := p.difficulty_progression
    subjects := p.subjects
    created_at := p.created_at.isoformat
    updated_at := p.updated_at.isoformat
    status := p.status }

/-- The objective reconstruction loop of `load_learning_path`. -/
def objective_of_data (d : ObjectiveData) : LearningObjective :=
  { id := d.id, title := d.title, description := d.description
    subject := d.subject, difficulty_level := d.difficulty_level
    prerequisites := d.prerequisites, estimated_duration := d.estimated_duration
    content_ids := d.content_ids }

/-- `load_learning_path` (a malformed timestamp is the fatal load error of
the source, hence `Option`). -/
def load_learning_path (d : PathData) : Option LearningPath :=
  match PyDateTime.fromisoformat d.created_at, PyDateTime.fromisoformat d.updated_at with
  | some created_at, some updated_at =>
      some
        { student_id := d.student_id, path_id := d.path_id, title := d.title
          description := d.description
          objectives := d.objectives.map objective_of_data
          estimated_total_duration := d.estimated_total_duration
          difficulty_progression := d.difficulty_progression
          subjects := d.subjects
          created_at := created_at, updated_at := updated_at
          status := d.status }
  | _, _ => none

/-! ### Claim C2: target objective count -/

/-- Modelled from the spec's words (claim C2), for comparison with the
source: `count = clamp(target_duration // 30, 3, max_objectives_per_path)`
whenever a `target_duration` is given, otherwise the per-level base count
clamped the same way. -/
def spec_objective_count (path_level : String) (target_duration : Option Int) : Nat :=
  match target_duration with
  | some t => (min (max 3 (t.fdiv 30)) (max_objectives_per_path : Int)).toNat
  | none => min (base_counts path_level) max_objectives_per_path

/-- C2, counterexample: a `target_duration` of `0` is given yet falsy in
Python, so the source takes the per-level base count (4 for `beginner`)
while the spec's clamp formula would give 3. -/
theorem determine_objective_count_zero_ce :
    determine_objective_count "beginner" (some 0) = 4 ∧
      spec_objective_count "beginner" (some 0) = 3 := by
  constructor <;> rfl

/-- C2, amended: the spec clamp formula holds for every non-zero given
`target_duration`; for an absent or zero (falsy) `target_duration` the count
is the per-level base count (`beginner = 4`, `intermediate = 6`,
`advanced = 8`) clamped to at most `max_objectives_per_path = 10`. -/
theorem determine_objective_count_spec (path_level : String) (t : Int) (ht : t ≠ 0) :
    determine_objective_count path_level (some t) =
        (min (max 3 (t.fdiv 30)) (max_objectives_per_path : Int)).toNat ∧
      determine_objective_count path_level none =
        min (base_counts path_level) max_objectives_per_path ∧
      determine_objective_count path_level (some 0) =
        min (base_counts path_level) max_objectives_per_path ∧
      base_counts "beginner" = 4 ∧ base_counts "intermediate" = 6 ∧
      base_counts "advanced" = 8 := by
  refine ⟨?_, rfl, rfl, rfl, rfl, rfl⟩
  simp [determine_objective_count, ht]

/-- Witness for `determine_objective_count_spec` at `t = 60`. -/
theorem determine_objective_count_spec_witness :
    determine_objective_count "beginner" (some 60) =
        (min (max 3 ((60 : Int).fdiv 30)) (max_objectives_per_path : Int)).toNat :=
  (determine_objective_count_spec "beginner" 60 (by decide)).1

/-! ### Claim C3: estimated objective duration -/

/-- The difficulty multiplier as an exact rational
(`beginner 0.8`, `intermediate 1.0`, `advanced 1.3`, `expert 1.5`). -/
def difficulty_multiplier_q (difficulty : String) : Rat :=
  (difficulty_multiplier_num difficulty : Rat) / 10

/-- Modelled from the spec's words (claim C3), for comparison with the
source: `clamp(round(word_count / 50 * difficulty_multiplier), 15, 60)`. -/
def spec_estimate_duration (content : String) (difficulty : String) : Int :=
  max 15 (min
    (round ((word_count content : Rat) / 50 * difficulty_multiplier_q difficulty)) 60)

/-- C3, counterexample: a one-word content at difficulty `advanced`.  The
source raises the words-per-minute base to at least 15 **before** applying
the multiplier and truncates (`int(15 * 1.3) = 19`), while the spec formula
rounds the raw product (`round(1/50 * 1.3) = 0`, clamped to 15). -/
theorem estimate_objective_duration_ce :
    estimate_objective_duration "hello" "advanced" = 19 ∧
      spec_estimate_duration "hello" "advanced" = 15 := by
  refine ⟨by decide, ?_⟩
  have hwc : word_count "hello" = 1 := by decide
  have hnum : difficulty_multiplier_num "advanced" = 13 := by decide
  have hm : difficulty_multiplier_q "advanced" = 13 / 10 := by
    unfold difficulty_multiplier_q
    rw [hnum]
    norm_num
  unfold spec_estimate_duration
  rw [hwc, hm, round_eq]
  have h0 : ⌊(((1 : Nat) : Rat)) / 50 * (13 / 10) + 1 / 2⌋ = 0 := by
    rw [Int.floor_eq_zero_iff]
    constructor <;> norm_num
  rw [h0]
  decide

/-- C3, amended: the estimated duration is
`clamp(⌊max(15, ⌊word_count / 50⌋) * difficulty_multiplier⌋, 15, 60)` —
the base is floored words-per-50 raised to at least 15, the multiplied
value is truncated (not rounded), and only then clamped to `[15, 60]`. -/
theorem estimate_objective_duration_formula (content difficulty : String) :
    estimate_objective_duration content difficulty =
      max 15 (min
        ((⌊((max 15 (word_count content / 50) : Nat) : Rat) *
            difficulty_multiplier_q difficulty⌋₊ : Int)) 60) := by
  unfold estimate_objective_duration difficulty_multiplier_q
  unfold min_duration_per_objective max_duration_per_objective
  have h : ((max 15 (word_count content / 50) : Nat) : Rat) *
      ((difficulty_multiplier_num difficulty : Nat) : Rat) / 10 =
      ((max 15 (word_count content / 50) * difficulty_multiplier_num difficulty : Nat) : Rat) /
        ((10 : Nat) : Rat) := by
    push_cast
    ring
  rw [mul_div_assoc] at h
  rw [h, Nat.floor_div_eq_div]

/-! ### Claim C8: empty content pool -/

/-- C8: planning over an empty content pool returns the empty objective
list (for any injected randomness, any style, level and target duration),
and validating the empty objective list is invalid with exactly the issue
`"No objectives defined"`. -/
theorem plan_objectives_empty_validate
    (shuffle : List ContentItem → List ContentItem)
    (choose : List ContentItem → Option ContentItem)
    (primary_style path_level : String) (target_duration : Option Int) :
    plan_objectives shuffle choose [] primary_style path_level target_duration = [] ∧
      (validate_learning_path []).is_valid = false ∧
      (validate_learning_path []).issues = ["No objectives defined"] := by
  refine ⟨?_, rfl, rfl⟩
  unfold plan_objectives group_content_by_subject_and_difficulty
    add_additional_objectives sort_objectives_by_difficulty_and_prerequisites
  by_cases h :
      (0 : Nat) < determine_objective_count path_level target_duration <;>
    simp [h]

/-! ### Claim C9: learning-style filtering never empties the pool -/

/-- C9: for a non-empty content list the style filter returns a non-empty
list; it is the allow-list filter when that is non-empty, and the original
list otherwise. -/
theorem filter_content_by_learning_style_spec
    (content : List ContentItem) (primary_style : String) (h : content ≠ []) :
    filter_content_by_learning_style content primary_style ≠ [] ∧
      (content.filter (fun item => content_type_of item ∈ style_preferences primary_style) ≠ [] →
        filter_content_by_learning_style content primary_style =
          content.filter (fun item => content_type_of item ∈ style_preferences primary_style)) ∧
      (content.filter (fun item => content_type_of item ∈ style_preferences primary_style) = [] →
        filter_content_by_learning_style content primary_style = content) := by
  have hdef : filter_content_by_learning_style content primary_style =
      if (content.filter
            (fun item => content_type_of item ∈ style_preferences primary_style)).isEmpty
      then content
      else content.filter
        (fun item => content_type_of item ∈ style_preferences primary_style) := rfl
  by_cases hf :
      content.filter (fun item => content_type_of item ∈ style_preferences primary_style) = []
  · rw [hdef, if_pos (List.isEmpty_iff.mpr hf)]
    exact ⟨h, fun hne => absurd hf hne, fun _ => rfl⟩
  · rw [hdef, if_neg (by simpa [List.isEmpty_iff] using hf)]
    exact ⟨hf, fun _ => rfl, fun he => absurd he hf⟩

/-- Witness for `filter_content_by_learning_style_spec`: one item of
content type `exercise` under a `visual` learner — the allow-list filter
empties the pool, so the whole pool comes back. -/
theorem filter_content_by_learning_style_spec_witness :
    filter_content_by_learning_style
        [⟨"c1", "text", ⟨some "math", some "beginner", some "exercise"⟩⟩] "visual" ≠ [] :=
  (filter_content_by_learning_style_spec
    [⟨"c1", "text", ⟨some "math", some "beginner", some "exercise"⟩⟩] "visual"
    (by decide)).1

/-! ### Claim C10: path-level tie break -/

/-- C10: `max(factors, key=factors.get)` returns the first level with
maximal score in the fixed dictionary order `beginner, intermediate,
advanced`; on a tie for the highest score the easier level wins. -/
theorem determine_path_level_first_max (p : StudentProfile) (fb fi fa : Nat)
    (h : path_level_factors p = some (fb, fi, fa)) :
    determine_path_level p =
      some (if fi ≤ fb ∧ fa ≤ fb then "beginner"
            else if fa ≤ fi then "intermediate"
            else "advanced") := by
  unfold determine_path_level
  rw [h]
  unfold firstMax
  simp only [Option.map_some', List.foldl]
  by_cases h1 : fb < fi
  · rw [if_pos h1]
    dsimp only
    by_cases h2 : fi < fa
    · rw [if_pos h2, if_neg (fun hc => absurd h1 (Nat.not_lt.mpr hc.1)),
        if_neg (Nat.not_le.mpr h2)]
    · rw [if_neg h2, if_neg (fun hc => absurd h1 (Nat.not_lt.mpr hc.1)),
        if_pos (Nat.not_lt.mp h2)]
  · rw [if_neg h1]
    dsimp only
    by_cases h2 : fb < fa
    · rw [if_pos h2, if_neg (fun hc => absurd h2 (Nat.not_lt.mpr hc.2)),
        if_neg (Nat.not_le.mpr (Nat.lt_of_le_of_lt (Nat.not_lt.mp h1) h2))]
    · rw [if_neg h2, if_pos ⟨Nat.not_lt.mp h1, Nat.not_lt.mp h2⟩]

/-- The profile of the concrete example of claim C10: `current_level =
advanced`, `average_performance = 0.5`, `learning_pace = slow`. -/
def tie_profile : StudentProfile :=
  { current_level := some "advanced"
    average_performance := some (5 / 10)
    learning_pace := some "slow" }

/-- Witness for `determine_path_level_first_max` on the claim's example:
beginner and advanced tie at 2 votes and `beginner` wins. -/
theorem determine_path_level_first_max_witness :
    determine_path_level tie_profile = some "beginner" := by
  have h : path_level_factors tie_profile = some (2, 0, 2) := by
    unfold path_level_factors tie_profile
    norm_num
    exact ⟨0, 0, 2, by decide, by decide⟩
  have := determine_path_level_first_max tie_profile 2 0 2 h
  simpa using this

/-! ### Claim C4: adaptation no-op band -/

/-- C4: in the no-adaptation band — `completion_rate ∈ (0.3, 0.8]` and
`average_performance ∈ (0.4, 0.8]` — `adapt_learning_path` returns the path
unchanged (same objectives, same total duration, same `updated_at`),
whatever the injected randomness, content fetch and clock. -/
theorem adapt_learning_path_noop
    (shuffle : List ContentItem → List ContentItem)
    (choose : List ContentItem → Option ContentItem)
    (fetch : List String → List String → List ContentItem)
    (now : PyDateTime) (path : LearningPath) (progress : StudentProgress)
    (cr ap : Rat)
    (hcr : progress.completion_rate = some cr)
    (hap : progress.average_performance = some ap)
    (hcr1 : 3 / 10 < cr) (hcr2 : cr ≤ 8 / 10)
    (hap1 : 4 / 10 < ap) (hap2 : ap ≤ 8 / 10) :
    adapt_learning_path shuffle choose fetch now path progress = path := by
  have hno : (analyze_progress progress).needs_adaptation = false := by
    unfold analyze_progress
    rw [hcr, hap]
    simp only [Option.getD_some]
    rw [if_neg (by linarith), if_neg (by linarith),
      if_neg (by linarith), if_neg (by linarith)]
  simp only [adapt_learning_path]
  rw [hno]
  simp

/-- Witness for `adapt_learning_path_noop` at `completion_rate =
average_performance = 0.5` on a minimal path. -/
theorem adapt_learning_path_noop_witness :
    adapt_learning_path id List.head? (fun _ _ => []) ⟨2024, 1, 1, 0, 0, 0, 0⟩
        { student_id := "s1", path_id := "p1", title := "t", description := "d"
          objectives := [], estimated_total_duration := 0
          difficulty_progression := [], subjects := []
          created_at := ⟨2024, 1, 1, 0, 0, 0, 0⟩
          updated_at := ⟨2024, 1, 1, 0, 0, 0, 0⟩, status := "active" }
        { completion_rate := some (5 / 10), average_performance := some (5 / 10) } =
      { student_id := "s1", path_id := "p1", title := "t", description := "d"
        objectives := [], estimated_total_duration := 0
        difficulty_progression := [], subjects := []
        created_at := ⟨2024, 1, 1, 0, 0, 0, 0⟩
        updated_at := ⟨2024, 1, 1, 0, 0, 0, 0⟩, status := "active" } :=
  adapt_learning_path_noop id List.head? (fun _ _ => []) ⟨2024, 1, 1, 0, 0, 0, 0⟩ _ _
    (5 / 10) (5 / 10) rfl rfl (by norm_num) (by norm_num) (by norm_num) (by norm_num)

/-! ### Claim C6: assessed style always defined -/

/-- `firstMax` picks one of the listed keys. -/
theorem firstMax_mem (init : String × Nat) (rest : List (String × Nat)) :
    firstMax init rest ∈ (init :: rest).map Prod.fst := by
  induction rest generalizing init with
  | nil => simp [firstMax]
  | cons kv rest ih =>
      unfold firstMax
      simp only [List.foldl]
      by_cases hk : kv.2 > init.2
      · rw [if_pos hk]
        have := ih kv
        simp only [List.map, List.mem_cons] at this ⊢
        tauto
      · rw [if_neg hk]
        have := ih init
        simp only [List.map, List.mem_cons] at this ⊢
        tauto

/-- The primary style is always one of the four modalities. -/
theorem primaryOf_mem (s : Scores) :
    primaryOf s ∈ ["visual", "auditory", "kinesthetic", "reading_writing"] := by
  have := firstMax_mem ("visual", s.visual)
    [("auditory", s.auditory), ("kinesthetic", s.kinesthetic),
     ("reading_writing", s.reading_writing)]
  simpa [primaryOf] using this

/-- C6, counterexample: a profile carrying an **empty** quiz-answer mapping.
The assessment branch tallies zero responses, so all four accumulators stay
0 and their sum is 0, not ≥ 1 (the visual-default fallback lives only in
the profile-inference branch); the primary style is still defined
(`visual`, first in tie order). -/
theorem assess_learning_style_ce :
    (assess_learning_style { learning_style_assessment := some [] }).scores.total = 0 ∧
      (assess_learning_style
          { learning_style_assessment := some [] }).primary_style = "visual" := by
  constructor <;> rfl

/-- C6, amended: for every profile the primary style is defined and one of
the four modalities; the accumulator sum is at least 1 for every profile
that carries no quiz answers (inference branch, with its visual-default
fallback), while in the quiz branch it equals the number of valid responses
and can be 0. -/
theorem assess_learning_style_spec (p : StudentProfile) :
    (assess_learning_style p).primary_style ∈
        ["visual", "auditory", "kinesthetic", "reading_writing"] ∧
      (p.learning_style_assessment = none →
        1 ≤ (assess_learning_style p).scores.total) := by
  unfold assess_learning_style
  cases hq : p.learning_style_assessment with
  | some results =>
      refine ⟨?_, fun hnone => by simp [hq] at hnone⟩
      exact primaryOf_mem _
  | none =>
      refine ⟨primaryOf_mem _, fun _ => ?_⟩
      have key : ∀ s : Scores, 1 ≤ (if s.total = 0 then { s with visual := 1 } else s).total := by
        intro s
        by_cases hz : s.total = 0
        · rw [if_pos hz]
          unfold Scores.total at hz ⊢
          dsimp only
          omega
        · rw [if_neg hz]
          omega
      unfold infer_learning_style_from_profile
      dsimp only
      exact key _

/-- Witness for `assess_learning_style_spec` on the empty (all-default)
profile: the inference branch falls back to visual with weight 1. -/
theorem assess_learning_style_spec_witness :
    (assess_learning_style {}).primary_style ∈
        ["visual", "auditory", "kinesthetic", "reading_writing"] ∧
      1 ≤ (assess_learning_style {}).scores.total :=
  ⟨(assess_learning_style_spec {}).1, (assess_learning_style_spec {}).2 rfl⟩

/-! ### Claim C7: difficulty sort — ascending, stable, idempotent -/

/-- Inserting an objective whose key is `k` places it in front of the
equal-key elements: the `k`-filtered output is the element followed by the
`k`-filtered input. -/
theorem filter_orderedInsert_key_eq (k : Nat) (a : LearningObjective)
    (l : List LearningObjective) (ha : difficulty_key a = k) :
    (l.orderedInsert byDifficulty a).filter (fun o => difficulty_key o = k) =
      a :: l.filter (fun o => difficulty_key o = k) := by
  induction l with
  | nil => simp [List.orderedInsert, ha]
  | cons b l ih =>
      rw [List.orderedInsert]
      by_cases hab : byDifficulty a b
      · rw [if_pos hab, List.filter_cons_of_pos (by simp [ha])]
      · have hbk : difficulty_key b ≠ k := by
          intro hbk
          exact hab (show difficulty_key a ≤ difficulty_key b by omega)
        rw [if_neg hab, List.filter_cons_of_neg (by simp [hbk]), ih,
          List.filter_cons_of_neg (by simp [hbk])]

/-- Inserting an objective whose key is not `k` leaves the `k`-filtered
list unchanged. -/
theorem filter_orderedInsert_key_ne (k : Nat) (a : LearningObjective)
    (l : List LearningObjective) (ha : difficulty_key a ≠ k) :
    (l.orderedInsert byDifficulty a).filter (fun o => difficulty_key o = k) =
      l.filter (fun o => difficulty_key o = k) := by
  induction l with
  | nil => simp [List.orderedInsert, ha]
  | cons b l ih =>
      rw [List.orderedInsert]
      by_cases hab : byDifficulty a b
      · rw [if_pos hab, List.filter_cons_of_neg (by simp [ha])]
      · rw [if_neg hab, List.filter_cons, List.filter_cons, ih]

/-- Stability of the difficulty sort: for every difficulty rank `k`, the
subsequence of rank-`k` objectives is exactly the input subsequence. -/
theorem filter_sort_objectives_key (k : Nat) (l : List LearningObjective) :
    (sort_objectives_by_difficulty_and_prerequisites l).filter
        (fun o => difficulty_key o = k) =
      l.filter (fun o => difficulty_key o = k) := by
  unfold sort_objectives_by_difficulty_and_prerequisites
  induction l with
  | nil => rfl
  | cons a l ih =>
      rw [List.insertionSort]
      by_cases ha : difficulty_key a = k
      · rw [filter_orderedInsert_key_eq k a _ ha, ih,
          List.filter_cons_of_pos (by simp [ha])]
      · rw [filter_orderedInsert_key_ne k a _ ha, ih,
          List.filter_cons_of_neg (by simp [ha])]

/-- C7: `_sort_objectives_by_difficulty_and_prerequisites` sorts ascending
by difficulty rank, is stable (each rank's subsequence keeps its input
order), leaves an already-sorted list unchanged, and is therefore
idempotent. -/
theorem sort_objectives_spec (l : List LearningObjective) :
    List.Sorted byDifficulty (sort_objectives_by_difficulty_and_prerequisites l) ∧
      (∀ k : Nat, (sort_objectives_by_difficulty_and_prerequisites l).filter
          (fun o => difficulty_key o = k) = l.filter (fun o => difficulty_key o = k)) ∧
      (List.Sorted byDifficulty l →
        sort_objectives_by_difficulty_and_prerequisites l = l) ∧
      sort_objectives_by_difficulty_and_prerequisites
          (sort_objectives_by_difficulty_and_prerequisites l) =
        sort_objectives_by_difficulty_and_prerequisites l := by
  refine ⟨List.sorted_insertionSort byDifficulty l,
    fun k => filter_sort_objectives_key k l,
    fun hs => hs.insertionSort_eq, ?_⟩
  exact (List.sorted_insertionSort byDifficulty l).insertionSort_eq

/-- A difficulty-sorted two-objective list. -/
def sorted_pair : List LearningObjective :=
  [⟨"o1", "t1", "d1", "math", "beginner", [], 30, ["c1"]⟩,
   ⟨"o2", "t2", "d2", "math", "advanced", [], 45, ["c2"]⟩]

/-- Witness for `sort_objectives_spec`: re-sorting an already-sorted list
returns it unchanged. -/
theorem sort_objectives_spec_witness :
    sort_objectives_by_difficulty_and_prerequisites sorted_pair = sorted_pair :=
  (sort_objectives_spec sorted_pair).2.2.1 (by decide)

/-! ### Claim C5: save/load round-trip -/

/-- A digit character parses back to its value. -/
theorem digitToNat_digitChar {x : Nat} (h : x < 10) :
    digitToNat x.digitChar = x := by
  interval_cases x <;> rfl

/-- `parse2` inverts `pad2` below 100. -/
theorem parse2_digits {n : Nat} (h : n < 100) :
    parse2 (Nat.digitChar (n / 10)) (Nat.digitChar (n % 10)) = n := by
  unfold parse2
  rw [digitToNat_digitChar (by omega), digitToNat_digitChar (by omega)]
  omega

/-- `parse4` inverts `pad4` below 10000. -/
theorem parse4_digits {n : Nat} (h : n < 10000) :
    parse4 (Nat.digitChar (n / 1000)) (Nat.digitChar (n / 100 % 10))
        (Nat.digitChar (n / 10 % 10)) (Nat.digitChar (n % 10)) = n := by
  unfold parse4
  rw [digitToNat_digitChar (by omega), digitToNat_digitChar (by omega),
    digitToNat_digitChar (by omega), digitToNat_digitChar (by omega)]
  omega

/-- `parse6` inverts `pad6` below 1000000. -/
theorem parse6_digits {n : Nat} (h : n < 1000000) :
    parse6 (Nat.digitChar (n / 100000)) (Nat.digitChar (n / 10000 % 10))
        (Nat.digitChar (n / 1000 % 10)) (Nat.digitChar (n / 100 % 10))
        (Nat.digitChar (n / 10 % 10)) (Nat.digitChar (n % 10)) = n := by
  unfold parse6
  rw [digitToNat_digitChar (by omega), digitToNat_digitChar (by omega),
    digitToNat_digitChar (by omega), digitToNat_digitChar (by omega),
    digitToNat_digitChar (by omega), digitToNat_digitChar (by omega)]
  omega

/-- `fromisoformat` inverts `isoformat` on every valid datetime. -/
theorem fromisoformat_isoformat (d : PyDateTime) (h : d.Valid) :
    PyDateTime.fromisoformat d.isoformat = some d := by
  obtain ⟨hy, hmo, hd, hh, hmi, hs, hus⟩ := h
  unfold PyDateTime.isoformat pad4 pad2 pad6
  by_cases hms : d.microsecond = 0
  · rw [if_pos hms]
    simp only [List.cons_append, List.nil_append, List.append_nil]
    simp only [PyDateTime.fromisoformat]
    rw [parse4_digits hy, parse2_digits hmo, parse2_digits hd,
      parse2_digits hh, parse2_digits hmi, parse2_digits hs, ← hms]
  · rw [if_neg hms]
    simp only [List.cons_append, List.nil_append, List.append_nil]
    simp only [PyDateTime.fromisoformat]
    rw [parse4_digits hy, parse2_digits hmo, parse2_digits hd,
      parse2_digits hh, parse2_digits hmi, parse2_digits hs, parse6_digits hus]

/-- C5: serializing a `LearningPath` to its record form and reconstructing
it recovers the path field-for-field, the `datetime` fields included
(recovered from their ISO-8601 strings). -/
theorem load_save_roundtrip (p : LearningPath)
    (h1 : p.created_at.Valid) (h2 : p.updated_at.Valid) :
    load_learning_path (save_learning_path p) = some p := by
  unfold load_learning_path save_learning_path
  dsimp only
  rw [fromisoformat_isoformat _ h1, fromisoformat_isoformat _ h2]
  rw [List.map_map,
    show objective_of_data ∘ objective_to_data = id from funext fun _ => rfl,
    List.map_id]

/-- A concrete learning path with a microsecond-free `created_at` and a
microsecond-bearing `updated_at`. -/
def demo_path : LearningPath :=
  { student_id := "s1", path_id := "path_s1_20240501_103000"
    title := "Personalized Learning Path - math"
    description := "Custom learning path designed for visual learners"
    objectives := sorted_pair, estimated_total_duration := 75
    difficulty_progression := ["beginner", "beginner", "intermediate"]
    subjects := ["math"]
    created_at := ⟨2024, 5, 1, 10, 30, 0, 0⟩
    updated_at := ⟨2024, 5, 1, 10, 30, 0, 123456⟩
    status := "active" }

/-- Witness for `load_save_roundtrip` on `demo_path`. -/
theorem load_save_roundtrip_witness :
    load_learning_path (save_learning_path demo_path) = some demo_path :=
  load_save_roundtrip demo_path (by decide) (by decide)

/-! ### Claim C1: size and duration bounds of `plan_objectives` -/

/-- The duration clamp every objective is claimed to satisfy. -/
def duration_ok (o : LearningObjective) : Prop :=
  15 ≤ o.estimated_duration ∧ o.estimated_duration ≤ 60

/-- Five advanced mathematics items: a non-empty pool on which
`plan_objectives` at level `beginner` produces a single objective. -/
def c5_pool : List ContentItem :=
  [⟨"m1", "w", ⟨some "math", some "advanced", some "lesson"⟩⟩,
   ⟨"m2", "w", ⟨some "math", some "advanced", some "lesson"⟩⟩,
   ⟨"m3", "w", ⟨some "math", some "advanced", some "lesson"⟩⟩,
   ⟨"m4", "w", ⟨some "math", some "advanced", some "lesson"⟩⟩,
   ⟨"m5", "w", ⟨some "math", some "advanced", some "lesson"⟩⟩]

/-- C1, counterexample: on a pool of five available items (all of subject
`math` at difficulty `advanced`) and `path_level = beginner`, the
difficulty-progression template never matches, so only the single
`math - Introduction` filler objective is produced: the returned length is
1, below the claimed lower bound `min(3, 5) = 3`. -/
theorem plan_objectives_length_ce :
    (plan_objectives id List.head? c5_pool "visual" "beginner" none).length = 1 ∧
      c5_pool.length = 5 := by
  constructor <;> decide

/-- The target objective count is always within `[3, 10]`. -/
theorem determine_objective_count_bounds (path_level : String)
    (target_duration : Option Int) :
    3 ≤ determine_objective_count path_level target_duration ∧
      determine_objective_count path_level target_duration ≤ 10 := by
  have hb : 4 ≤ base_counts path_level ∧ base_counts path_level ≤ 8 := by
    unfold base_counts
    split_ifs <;> omega
  unfold determine_objective_count max_objectives_per_path
  cases target_duration with
  | none =>
      dsimp only
      omega
  | some t =>
      dsimp only
      by_cases ht : t = 0
      · rw [if_pos ht]
        omega
      · rw [if_neg ht]
        omega

/-- Estimated durations are always within `[15, 60]`. -/
theorem estimate_objective_duration_bounds (content difficulty : String) :
    15 ≤ estimate_objective_duration content difficulty ∧
      estimate_objective_duration content difficulty ≤ 60 := by
  unfold estimate_objective_duration min_duration_per_objective max_duration_per_objective
  dsimp only
  omega

/-- Every objective created from content has an in-range duration. -/
theorem create_objectives_duration (shuffle : List ContentItem → List ContentItem)
    (content : List ContentItem) (subject difficulty : String) (m : Nat) :
    ∀ o ∈ create_objectives_from_content shuffle content subject difficulty m,
      duration_ok o := by
  intro o ho
  unfold create_objectives_from_content at ho
  obtain ⟨p, _, rfl⟩ := List.mem_map.mp ho
  exact estimate_objective_duration_bounds p.2.content difficulty

/-- Every objective produced by the per-subject planning loop has an
in-range duration. -/
theorem plan_subject_objectives_duration
    (shuffle : List ContentItem → List ContentItem)
    (subject : String) (difficulty_groups : DifficultyGroups)
    (primary_style path_level : String) (n : Nat) :
    ∀ o ∈ plan_subject_objectives shuffle subject difficulty_groups
        primary_style path_level n, duration_ok o := by
  unfold plan_subject_objectives
  generalize get_difficulty_progression path_level = ds
  have key : ∀ (ds : List String) (acc : List LearningObjective),
      (∀ o ∈ acc, duration_ok o) →
      ∀ o ∈ ds.foldl
          (plan_subject_step shuffle subject difficulty_groups primary_style n) acc,
        duration_ok o := by
    intro ds
    induction ds with
    | nil => intro acc hacc; exact hacc
    | cons d ds ih =>
        intro acc hacc o ho
        refine ih _ ?_ o ho
        intro o' ho'
        unfold plan_subject_step at ho'
        rcases hl : difficulty_groups.lookup d with _ | cfd
        · rw [hl] at ho'
          exact hacc o' ho'
        · rw [hl] at ho'
          dsimp only at ho'
          split_ifs at ho' with hlen hemp
          · exact hacc o' ho'
          · rcases List.mem_append.mp ho' with hin | hin
            · exact hacc o' hin
            · exact create_objectives_duration shuffle _ subject d _ o' hin
          · exact hacc o' ho'
  exact key ds [] (by intro o ho; cases ho)

/-- Every filler objective has duration 30, hence in range. -/
theorem add_additional_objectives_duration
    (choose : List ContentItem → Option ContentItem)
    (available_content : List ContentItem)
    (existing : List LearningObjective) (target : Nat) :
    ∀ o ∈ add_additional_objectives choose available_content existing target,
      duration_ok o := by
  unfold add_additional_objectives
  dsimp only
  have key : ∀ (us : List String) (acc : List LearningObjective),
      (∀ o ∈ acc, duration_ok o) →
      ∀ o ∈ us.foldl
          (add_additional_step choose available_content existing.length target) acc,
        duration_ok o := by
    intro us
    induction us with
    | nil => intro acc hacc; exact hacc
    | cons s us ih =>
        intro acc hacc o ho
        refine ih _ ?_ o ho
        intro o' ho'
        unfold add_additional_step at ho'
        dsimp only at ho'
        split_ifs at ho' with htc hemp
        · exact hacc o' ho'
        · exact hacc o' ho'
        · rcases hc : choose (available_content.filter
              (fun item => item.metadata.subject = some s)) with _ | ci
          · rw [hc] at ho'
            exact hacc o' ho'
          · rw [hc] at ho'
            rcases List.mem_append.mp ho' with hin | hin
            · exact hacc o' hin
            · rcases List.mem_singleton.mp hin with rfl
              exact ⟨by norm_num [mk_additional_objective],
                by norm_num [mk_additional_objective]⟩
  exact key _ [] (by intro o ho; cases ho)

/-- Every objective accumulated across the subject groups has an in-range
duration. -/
theorem groups_fold_duration (shuffle : List ContentItem → List ContentItem)
    (primary_style path_level : String) (n : Nat) (groups : ContentGroups) :
    ∀ o ∈ groups.foldl
        (fun acc p =>
          acc ++ plan_subject_objectives shuffle p.1 p.2 primary_style path_level n) [],
      duration_ok o := by
  have key : ∀ (gs : ContentGroups) (acc : List LearningObjective),
      (∀ o ∈ acc, duration_ok o) →
      ∀ o ∈ gs.foldl
          (fun acc p =>
            acc ++ plan_subject_objectives shuffle p.1 p.2 primary_style path_level n) acc,
        duration_ok o := by
    intro gs
    induction gs with
    | nil => intro acc hacc; exact hacc
    | cons g gs ih =>
        intro acc hacc o ho
        refine ih _ ?_ o ho
        intro o' ho'
        rcases List.mem_append.mp ho' with hin | hin
        · exact hacc o' hin
        · exact plan_subject_objectives_duration shuffle g.1 g.2
            primary_style path_level n o' hin
  exact key groups [] (by intro o ho; cases ho)

/-- Every planned objective has an in-range duration. -/
theorem plan_objectives_duration (shuffle : List ContentItem → List ContentItem)
    (choose : List ContentItem → Option ContentItem)
    (content : List ContentItem) (primary_style path_level : String)
    (target_duration : Option Int) :
    ∀ o ∈ plan_objectives shuffle choose content primary_style path_level
        target_duration, duration_ok o := by
  intro o ho
  unfold plan_objectives at ho
  dsimp only at ho
  have hsorted := List.take_subset _ _ ho
  rw [sort_objectives_by_difficulty_and_prerequisites,
    List.mem_insertionSort] at hsorted
  split_ifs at hsorted with hlt
  · rcases List.mem_append.mp hsorted with hin | hin
    · exact groups_fold_duration shuffle primary_style path_level _ _ o hin
    · exact add_additional_objectives_duration choose content _ _ o hin
  · exact groups_fold_duration shuffle primary_style path_level _ _ o hsorted

/-- A duplicate-free list contained in another list is no longer than it. -/
theorem nodup_subset_length {α : Type} [DecidableEq α] {l l' : List α}
    (hn : l.Nodup) (hsub : ∀ x ∈ l, x ∈ l') : l.length ≤ l'.length :=
  calc l.length = l.toFinset.card := (List.toFinset_card_of_nodup hn).symm
    _ ≤ l'.toFinset.card :=
        Finset.card_le_card
          (fun x hx => List.mem_toFinset.mpr (hsub x (List.mem_toFinset.mp hx)))
    _ ≤ l'.length := l'.toFinset_card_le

/-- The filler loop never shrinks its accumulator. -/
theorem add_loop_len_mono (choose : List ContentItem → Option ContentItem)
    (content : List ContentItem) (E target : Nat) :
    ∀ (us : List String) (acc : List LearningObjective),
      acc.length ≤ (us.foldl (add_additional_step choose content E target) acc).length := by
  intro us
  induction us with
  | nil => intro acc; exact Nat.le_refl _
  | cons s us ih =>
      intro acc
      rw [List.foldl_cons]
      refine Nat.le_trans ?_ (ih (add_additional_step choose content E target acc s))
      unfold add_additional_step
      dsimp only
      split_ifs with htc hemp
      · exact Nat.le_refl _
      · exact Nat.le_refl _
      · cases hc : choose (content.filter (fun item => item.metadata.subject = some s)) with
        | none => exact Nat.le_refl _
        | some ci => simp

/-- One filler objective is appended per uncovered subject until the target
count is reached: the loop's final length is at least
`min target (E + acc + us)` when every listed subject has matching
content. -/
theorem add_loop_len_ge (choose : List ContentItem → Option ContentItem)
    (content : List ContentItem) (E target : Nat)
    (hch : ∀ l : List ContentItem, l ≠ [] → (choose l).isSome) :
    ∀ (us : List String) (acc : List LearningObjective),
      (∀ s ∈ us, content.filter (fun item => item.metadata.subject = some s) ≠ []) →
      min target (E + acc.length + us.length) ≤
        E + (us.foldl (add_additional_step choose content E target) acc).length := by
  intro us
  induction us with
  | nil =>
      intro acc _
      simp only [List.length_nil, Nat.add_zero, List.foldl_nil]
      exact Nat.min_le_right target (E + acc.length)
  | cons s us ih =>
      intro acc hok
      rw [List.foldl_cons]
      by_cases htc : target ≤ E + acc.length
      · have hstep : add_additional_step choose content E target acc s = acc := by
          unfold add_additional_step
          rw [if_pos htc]
        rw [hstep]
        have hmono := add_loop_len_mono choose content E target us acc
        have h1 : min target (E + acc.length + (s :: us).length) ≤ target :=
          Nat.min_le_left _ _
        omega
      · have hne := hok s (List.mem_cons_self s us)
        obtain ⟨ci, hci⟩ := Option.isSome_iff_exists.mp (hch _ hne)
        have hstep : add_additional_step choose content E target acc s =
            acc ++ [mk_additional_objective s ci acc.length] := by
          unfold add_additional_step
          rw [if_neg htc]
          dsimp only
          rw [if_neg (by simpa [List.isEmpty_iff] using hne), hci]
        rw [hstep]
        have hih := ih (acc ++ [mk_additional_objective s ci acc.length])
          (fun s' hs' => hok s' (List.mem_cons_of_mem s hs'))
        simp only [List.length_append, List.length_singleton, List.length_cons]
          at hih ⊢
        omega

/-- The distinct subjects of the pool are covered jointly by the existing
objectives and the uncovered-subject list. -/
theorem subjects_le_existing_add_uncovered (content : List ContentItem)
    (existing : List LearningObjective) :
    (content.map subject_of).dedup.length ≤
      existing.length +
        ((content.map subject_of).dedup.filter
          (fun s => s ∉ existing.map (fun o => o.subject))).length := by
  have hsplit := List.length_eq_length_filter_add
    (l := (content.map subject_of).dedup)
    (fun s => decide (s ∉ existing.map (fun o => o.subject)))
  have hin : ((content.map subject_of).dedup.filter
      (fun s => !decide (s ∉ existing.map (fun o => o.subject)))).length ≤
      existing.length := by
    have hn : ((content.map subject_of).dedup.filter
        (fun s => !decide (s ∉ existing.map (fun o => o.subject)))).Nodup :=
      (List.nodup_dedup _).filter _
    have hsub : ∀ x ∈ (content.map subject_of).dedup.filter
        (fun s => !decide (s ∉ existing.map (fun o => o.subject))),
        x ∈ existing.map (fun o => o.subject) := by
      intro x hx
      have := List.of_mem_filter hx
      simpa using this
    calc ((content.map subject_of).dedup.filter
          (fun s => !decide (s ∉ existing.map (fun o => o.subject)))).length ≤
        (existing.map (fun o => o.subject)).length := nodup_subset_length hn hsub
      _ = existing.length := List.length_map _ _
  omega

/-- Every subject in the pool's subject list has matching content, provided
each item carries an explicit subject tag. -/
theorem uncovered_subject_content_ne (content : List ContentItem)
    (hsub : ∀ item ∈ content, item.metadata.subject.isSome) :
    ∀ s ∈ (content.map subject_of).dedup,
      content.filter (fun item => item.metadata.subject = some s) ≠ [] := by
  intro s hs
  rw [List.mem_dedup] at hs
  obtain ⟨item, hitem, rfl⟩ := List.mem_map.mp hs
  obtain ⟨v, hv⟩ := Option.isSome_iff_exists.mp (hsub item hitem)
  intro hempty
  have hmem : item ∈ content.filter
      (fun i => i.metadata.subject = some (subject_of item)) :=
    List.mem_filter.mpr ⟨hitem, by simp [subject_of, hv]⟩
  rw [hempty] at hmem
  cases hmem

/-- C1, amended: for every content pool whose items carry an explicit
subject tag, any path level, any target duration and any injected
randomness, `plan_objectives` returns between `min(3, number of distinct
subjects)` and `max_objectives_per_path = 10` objectives, each with
`estimated_duration ∈ [15, 60]`.  (The original lower bound
`min(3, number of available items)` fails — see the counterexample.) -/
theorem plan_objectives_bounds
    (shuffle : List ContentItem → List ContentItem)
    (choose : List ContentItem → Option ContentItem)
    (content : List ContentItem) (primary_style path_level : String)
    (target_duration : Option Int)
    (hch : ∀ l : List ContentItem, l ≠ [] → (choose l).isSome)
    (hsub : ∀ item ∈ content, item.metadata.subject.isSome) :
    min 3 (content.map subject_of).dedup.length ≤
        (plan_objectives shuffle choose content primary_style path_level
          target_duration).length ∧
      (plan_objectives shuffle choose content primary_style path_level
        target_duration).length ≤ 10 ∧
      ∀ o ∈ plan_objectives shuffle choose content primary_style path_level
          target_duration, 15 ≤ o.estimated_duration ∧ o.estimated_duration ≤ 60 := by
  obtain ⟨hn3, hn10⟩ := determine_objective_count_bounds path_level target_duration
  refine ⟨?_, ?_, fun o ho => plan_objectives_duration shuffle choose content
    primary_style path_level target_duration o ho⟩ <;>
  · unfold plan_objectives
    dsimp only
    set n := determine_objective_count path_level target_duration with hn
    set groups := group_content_by_subject_and_difficulty content with hgroups
    set subjObjs := groups.foldl
      (fun acc p => acc ++ plan_subject_objectives shuffle p.1 p.2
        primary_style path_level (n / groups.length)) [] with hsubj
    have hL : ∀ l : List LearningObjective,
        ((sort_objectives_by_difficulty_and_prerequisites l).take n).length =
          min n l.length := by
      intro l
      rw [List.length_take, sort_objectives_by_difficulty_and_prerequisites,
        List.length_insertionSort]
    rw [hL]
    by_cases hlt : subjObjs.length < n
    · rw [if_pos hlt, List.length_append]
      have hok : ∀ s ∈ (content.map subject_of).dedup.filter
          (fun s => s ∉ subjObjs.map (fun o => o.subject)),
          content.filter (fun item => item.metadata.subject = some s) ≠ [] :=
        fun s hs =>
          uncovered_subject_content_ne content hsub s (List.mem_of_mem_filter hs)
      have hadd : min n (subjObjs.length + ([] : List LearningObjective).length +
          ((content.map subject_of).dedup.filter
            (fun s => s ∉ subjObjs.map (fun o => o.subject))).length) ≤
          subjObjs.length +
            (add_additional_objectives choose content subjObjs n).length := by
        unfold add_additional_objectives
        dsimp only
        exact add_loop_len_ge choose content subjObjs.length n hch _ [] hok
      have hS := subjects_le_existing_add_uncovered content subjObjs
      simp only [List.length_nil, Nat.add_zero] at hadd
      omega
    · rw [if_neg hlt]
      omega

/-- Witness for `plan_objectives_bounds` on the `c5_pool`: one distinct
subject, so the guaranteed lower bound is `min 3 1 = 1`, matching the
actually returned single objective. -/
theorem plan_objectives_bounds_witness :
    min 3 ((c5_pool.map subject_of).dedup.length) ≤
        (plan_objectives id List.head? c5_pool "visual" "beginner" none).length ∧
      (plan_objectives id List.head? c5_pool "visual" "beginner" none).length ≤ 10 ∧
      ∀ o ∈ plan_objectives id List.head? c5_pool "visual" "beginner" none,
        15 ≤ o.estimated_duration ∧ o.estimated_duration ≤ 60 :=
  plan_objectives_bounds id List.head? c5_pool "visual" "beginner" none
    (fun l hl => by
      cases l with
      | nil => exact absurd rfl hl
      | cons a t => rfl)
    (by decide)

end Nervesparks
